import Mathlib

/-!
Shallow embedding of the `starbot` HTTP client (`src/starbot.js`, the
`openapi.starbucks.com` implementation) in Lean 4, together with proofs of
the behavioural claims about it.

Modelling conventions:
* JavaScript/JSON values are modelled by the inductive `Json`.  The JS values
  `undefined` and `null` are collapsed into `Json.null` (the client never
  distinguishes them observably: both are falsy, both make optional chaining
  short-circuit, and both trigger a `TypeError` on direct property access).
* Numbers are modelled as `Int`; no claim depends on fractional values.
* The network is modelled as an oracle: every operation that may issue an
  HTTP request takes the `HttpResponse` the environment would answer with,
  and returns, besides its result, the list of `HttpRequest`s it issued
  (empty when the operation fails before reaching the network).
* Thrown JavaScript errors become the `StarbotError` inductive; each
  constructor corresponds to one distinct `throw` site of the source and
  carries exactly the data interpolated into the message thrown there.
  `typeError` models the implicit `TypeError` raised by a property access
  on a nullish value or by calling `.map` on a truthy non-array.
* The signature stub `_signature()` (which uses `Date.now()`) is modelled
  as an explicit input `sig` of `login`; no claim inspects its value.
-/

namespace Starbot

/-- JSON / JavaScript values as manipulated by the client. -/
inductive Json where
  | null : Json
  | bool (b : Bool) : Json
  | num (n : Int) : Json
  | str (s : String) : Json
  | arr (elems : List Json) : Json
  | obj (fields : List (String × Json)) : Json
  deriving Repr, Inhabited

namespace Json

/-- JavaScript truthiness of a value (`if (v)`). -/
def isTruthy : Json → Bool
  | .null => false
  | .bool b => b
  | .num n => n != 0
  | .str s => s != ""
  | .arr _ => true
  | .obj _ => true

/-- JavaScript falsiness (`if (!v)`). -/
def isFalsy (j : Json) : Bool := !j.isTruthy

/-- Whether the value is nullish (`null` or `undefined`, collapsed here). -/
def isNullish : Json → Bool
  | .null => true
  | _ => false

/-- Property access `v.k` on a value already known to be non-nullish:
object lookup (first binding wins, as JS object keys are unique), and
`undefined` (collapsed to `null`) on a missing key or a primitive. -/
def getField : Json → String → Json
  | .obj fields, k => (fields.lookup k).getD .null
  | _, _ => .null

/-- Optional-chaining access `v?.k`: `undefined` when `v` is nullish,
plain access otherwise. -/
def getFieldOpt (j : Json) (k : String) : Json :=
  if j.isNullish then .null else j.getField k

/-- Optional-chaining index `v?.[i]`. -/
def indexOpt : Json → Nat → Json
  | .arr l, i => (l.get? i).getD .null
  | .obj fields, i => (fields.lookup (toString i)).getD .null
  | _, _ => .null

/-- Whether the value is a JavaScript array (`Array.isArray(v)`). -/
def isArray : Json → Bool
  | .arr _ => true
  | _ => false

/-- The element list of an array value (used right after an `isArray`
check; any non-array defaults to `[]`). -/
def asArr : Json → List Json
  | .arr l => l
  | _ => []

mutual

/-- JavaScript string coercion `String(v)`, as used by template literals,
`URLSearchParams` and `url.searchParams.set`. -/
def jsToString : Json → String
  | .null => "null"
  | .bool b => if b then "true" else "false"
  | .num n => toString n
  | .str s => s
  | .arr l => String.intercalate "," (jsToStringElems l)
  | .obj _ => "[object Object]"

/-- Array elements under string coercion (`Array.prototype.join` renders
nullish elements as the empty string). -/
def jsToStringElems : List Json → List String
  | [] => []
  | x :: xs => (if x.isNullish then "" else jsToString x) :: jsToStringElems xs

end

/-- JavaScript strict equality `v === "lit"` against a string literal. -/
def eqStr : Json → String → Bool
  | .str s, t => s == t
  | _, _ => false

end Json

/-- The distinct failure modes of the client; one constructor per `throw`
site of the source, carrying exactly the data its message interpolates. -/
inductive StarbotError where
  /-- Message: Call setCredentials() first. Need client_id and client_secret
  from Starbucks app. -/
  | authConfig : StarbotError
  /-- Message: Not authenticated. Call login() or setToken() first. -/
  | notAuthenticated : StarbotError
  /-- Message: Auth failed, followed by the HTTP status. -/
  | authFailure (status : Nat) : StarbotError
  /-- Message: Starbucks API, followed by the HTTP status and the response
  body text. -/
  | apiError (status : Nat) (bodyText : String) : StarbotError
  /-- Message: Store locator failed, followed by the HTTP status. -/
  | locatorFailure (status : Nat) : StarbotError
  /-- Implicit JavaScript `TypeError` (property access on nullish, `.map`
  on a truthy non-array). -/
  | typeError : StarbotError
  deriving Repr, DecidableEq

/-- An HTTP request as issued by the client. `query` is the assoc list the
query string of the URL is built from; `formBody` is a form-encoded body
(`URLSearchParams`), `jsonBody` a body serialized with `JSON.stringify`. -/
structure HttpRequest where
  method : String
  url : String
  query : List (String × String)
  headers : List (String × String)
  formBody : Option (List (String × String))
  jsonBody : Option Json
  deriving Repr

/-- The answer of the environment to an HTTP request: status, raw body text
(`res.text()`), and parsed JSON body (`res.json()`). -/
structure HttpResponse where
  status : Nat
  bodyText : String
  json : Json
  deriving Repr

/-- Model of `res.ok` of the Fetch API: status in the inclusive range
200–299 (exactly the 2xx statuses). -/
def HttpResponse.ok (r : HttpResponse) : Bool :=
  200 ≤ r.status && r.status < 300

/-- Model of `url.searchParams.set(k, v)`: replace an existing binding in
place, else append. -/
def setParam (q : List (String × String)) (k v : String) : List (String × String) :=
  if q.any (fun p => p.1 == k) then
    q.map (fun p => if p.1 == k then (k, v) else p)
  else
    q ++ [(k, v)]

def BASE_URL : String := "https://openapi.starbucks.com/v1"

def USER_AGENT : String := "Starbucks Android 6.48"

/-- The mutable fields of the `StarbotAPI` class instance. -/
structure StarbotAPI where
  accessToken : Json
  clientId : Json
  clientSecret : Json
  deriving Repr

/-- Model of `new StarbotAPI()`: all fields start out `null`. -/
def StarbotAPI.new : StarbotAPI :=
  { accessToken := .null, clientId := .null, clientSecret := .null }

/-- Model of `setCredentials(clientId, clientSecret)` (returns `this` for
chaining, modelled as the updated state). -/
def setCredentials (st : StarbotAPI) (clientId clientSecret : Json) : StarbotAPI :=
  { st with clientId := clientId, clientSecret := clientSecret }

/-- Model of `setToken(token)` (returns `this` for chaining, modelled as
the updated state). -/
def setToken (st : StarbotAPI) (token : Json) : StarbotAPI :=
  { st with accessToken := token }

/-- Hexadecimal digit (uppercase), for percent-encoding. -/
def hexDigit (n : Nat) : Char :=
  if n < 10 then Char.ofNat (48 + n) else Char.ofNat (55 + n)

/-- UTF-8 byte sequence of a character, as a list of byte values. -/
def utf8Bytes (c : Char) : List Nat :=
  let n := c.toNat
  if n < 128 then [n]
  else if n < 2048 then [192 + n / 64, 128 + n % 64]
  else if n < 65536 then [224 + n / 4096, 128 + (n / 64) % 64, 128 + n % 64]
  else [240 + n / 262144, 128 + (n / 4096) % 64, 128 + (n / 64) % 64, 128 + n % 64]

/-- Characters `encodeURIComponent` leaves unescaped: the alphanumerics and
the nine marks of RFC 2396 (hyphen, underscore, dot, bang, tilde, star,
apostrophe, parentheses). -/
def isUnreservedChar (c : Char) : Bool :=
  c.isAlphanum || c == Char.ofNat 45 || c == Char.ofNat 95 || c == Char.ofNat 46 ||
  c == Char.ofNat 33 || c == Char.ofNat 126 || c == Char.ofNat 42 ||
  c == Char.ofNat 39 || c == Char.ofNat 40 || c == Char.ofNat 41

/-- Model of the JS builtin `encodeURIComponent`: unreserved characters
pass through, everything else is percent-encoded per UTF-8 byte. -/
def encodeURIComponent (s : String) : String :=
  String.join (s.toList.map fun c =>
    if isUnreservedChar c then String.singleton c
    else String.join ((utf8Bytes c).map fun b =>
      String.mk [Char.ofNat 37, hexDigit (b / 16), hexDigit (b % 16)]))

/-- Model of `login(username, password)` (`src/starbot.js` lines 149–181).

The `sig` argument stands for the value of the `_signature()` stub, whose
output depends on `Date.now()` and is modelled as an input supplied by the
environment.  Returns the outcome, the state after the call, and the list
of issued HTTP requests. -/
def login (st : StarbotAPI) (username password : String) (sig : String)
    (resp : HttpResponse) :
    Except StarbotError Json × StarbotAPI × List HttpRequest :=
  if st.clientId.isFalsy then
    (.error .authConfig, st, [])
  else
    let params : List (String × String) :=
      [("sig", sig), ("market", "CA"), ("platform", "Android")]
    let body : List (String × String) :=
      [("grant_type", "password"),
       ("client_id", st.clientId.jsToString),
       ("client_secret", st.clientSecret.jsToString),
       ("username", username),
       ("password", password)]
    let req : HttpRequest :=
      { method := "POST"
        url := BASE_URL ++ "/oauth/token"
        query := params
        headers := [("Content-Type", "application/x-www-form-urlencoded; charset=UTF-8"),
                    ("User-Agent", USER_AGENT),
                    ("Accept", "application/json"),
                    ("X-Api-Key", st.clientId.jsToString)]
        formBody := some body
        jsonBody := none }
    if !resp.ok then
      (.error (.authFailure resp.status), st, [req])
    else if resp.json.isNullish then
      -- `data.access_token` on a nullish body raises a TypeError.
      (.error .typeError, st, [req])
    else
      (.ok resp.json, { st with accessToken := resp.json.getField "access_token" }, [req])

/-- Model of `_authedRequest(method, path, params, body)` (`src/starbot.js`
lines 191–214): the single choke point of every authenticated operation.
`body` is `Json.null` when the JavaScript default `null` applies. -/
def _authedRequest (st : StarbotAPI) (method path : String)
    (params : List (String × Json)) (body : Json) (resp : HttpResponse) :
    Except StarbotError Json × List HttpRequest :=
  if st.accessToken.isFalsy then
    (.error .notAuthenticated, [])
  else
    let req : HttpRequest :=
      { method := method
        url := BASE_URL ++ "/" ++ path
        query := params.foldl (fun q p => setParam q p.1 p.2.jsToString) []
        headers := [("Authorization", "Bearer " ++ st.accessToken.jsToString),
                    ("Accept", "application/json"),
                    ("User-Agent", USER_AGENT)] ++
                   (if body.isTruthy then [("Content-Type", "application/json")] else [])
        formBody := none
        jsonBody := if body.isTruthy then some body else none }
    if !resp.ok then
      (.error (.apiError resp.status resp.bodyText), [req])
    else
      (.ok resp.json, [req])

/-- Model of `l.map(f)` for a callback that may throw: elements are mapped
left to right, the first exception propagates. -/
def mapJs (f : Json → Except StarbotError Json) :
    List Json → Except StarbotError (List Json)
  | [] => .ok []
  | x :: xs =>
    match f x with
    | .error e => .error e
    | .ok y =>
      match mapJs f xs with
      | .error e => .error e
      | .ok ys => .ok (y :: ys)

/-- Model of `(j || []).map(f)`: a falsy value maps to `[]`; mapping over a
truthy non-array raises a TypeError (`.map` is not a function there). -/
def jsMapArr (j : Json) (f : Json → Except StarbotError Json) :
    Except StarbotError (List Json) :=
  match j with
  | .arr l => mapJs f l
  | j => if j.isTruthy then .error .typeError else .ok []

/-- The record an entry of the raw result list of `nearbyStores` is reduced
to (the body of the arrow function at `src/starbot.js` lines 229–235), for
a non-nullish entry. -/
def mapNearbyStoreCore (s : Json) : Json :=
  .obj [("id", (s.getField "store").getFieldOpt "id"),
        ("name", (s.getField "store").getFieldOpt "name"),
        ("storeNumber", (s.getField "store").getFieldOpt "storeNumber"),
        ("address", (s.getField "store").getFieldOpt "address"),
        ("distance", s.getField "distance")]

/-- One entry of the `nearbyStores` mapping; a nullish entry raises a
TypeError when `s.distance` is read. -/
def mapNearbyStore (s : Json) : Except StarbotError Json :=
  if s.isNullish then .error .typeError else .ok (mapNearbyStoreCore s)

/-- Model of `nearbyStores(lat, lng, limit, radius)` (`src/starbot.js`
lines 219–236). -/
def nearbyStores (st : StarbotAPI) (lat lng limit radius : Json)
    (resp : HttpResponse) : Except StarbotError Json × List HttpRequest :=
  match _authedRequest st "GET" "stores/nearby"
      [("latlng", .str (lat.jsToString ++ "," ++ lng.jsToString)),
       ("limit", limit), ("radius", radius),
       ("xopState", .bool true),
       ("userSubMarket", .str "CA"),
       ("serviceTime", .bool true),
       ("locale", .str "en-CA")] .null resp with
  | (.error e, reqs) => (.error e, reqs)
  | (.ok data, reqs) =>
    if data.isNullish then (.error .typeError, reqs)
    else
      match jsMapArr (data.getField "stores") mapNearbyStore with
      | .error e => (.error e, reqs)
      | .ok ss => (.ok (.arr ss), reqs)

/-- The record a locator result is reduced to (`src/starbot.js` lines
248–257), for a non-nullish entry. -/
def mapLocatorStoreCore (s : Json) : Json :=
  .obj [("id", s.getField "id"),
        ("name", s.getField "name"),
        ("storeNumber", s.getField "storeNumber"),
        ("address", (s.getField "address").getFieldOpt "streetAddressLine1"),
        ("city", (s.getField "address").getFieldOpt "city"),
        ("distance", s.getField "distance"),
        ("mobileOrder", .bool ((s.getField "xopState").eqStr "OPEN")),
        ("hours", (s.getField "schedule").getFieldOpt "todayHours")]

/-- One entry of the `storesByAddress` mapping. -/
def mapLocatorStore (s : Json) : Except StarbotError Json :=
  if s.isNullish then .error .typeError else .ok (mapLocatorStoreCore s)

/-- Model of `storesByAddress(address)` (`src/starbot.js` lines 241–258):
the one unauthenticated fetch, against the public locator. -/
def storesByAddress (address : String) (resp : HttpResponse) :
    Except StarbotError Json × List HttpRequest :=
  let req : HttpRequest :=
    { method := "GET"
      url := "https://www.starbucks.ca/bff/locations?lat=49.1&lng=-122.6&mop=true&place=" ++
             encodeURIComponent address
      query := []
      headers := [("User-Agent", USER_AGENT)]
      formBody := none
      jsonBody := none }
  if !resp.ok then
    (.error (.locatorFailure resp.status), [req])
  else if resp.json.isNullish then
    (.error .typeError, [req])
  else
    match jsMapArr (resp.json.getField "stores") mapLocatorStore with
    | .error e => (.error e, [req])
    | .ok ss => (.ok (.arr ss), [req])

/-- The record a card entry is reduced to (`src/starbot.js` lines
265–270), for a non-nullish entry. -/
def mapCardCore (c : Json) : Json :=
  .obj [("cardId", c.getField "cardId"),
        ("cardNumber", c.getField "cardNumber"),
        ("nickname", c.getField "nickname"),
        ("balance", c.getField "balance")]

/-- One entry of the `cards` mapping. -/
def mapCard (c : Json) : Except StarbotError Json :=
  if c.isNullish then .error .typeError else .ok (mapCardCore c)

/-- Model of `cards()` (`src/starbot.js` lines 263–271):
`(Array.isArray(data) ? data : []).map(...)`. -/
def cards (st : StarbotAPI) (resp : HttpResponse) :
    Except StarbotError Json × List HttpRequest :=
  match _authedRequest st "GET" "me/cards" [] .null resp with
  | (.error e, reqs) => (.error e, reqs)
  | (.ok data, reqs) =>
    match mapJs mapCard (if data.isArray then data.asArr else []) with
    | .error e => (.error e, reqs)
    | .ok cs => (.ok (.arr cs), reqs)

/-- Model of `lastOrder()` (`src/starbot.js` lines 276–281):
`data?.orderHistoryItems?.[0]?.basket || null`. -/
def lastOrder (st : StarbotAPI) (resp : HttpResponse) :
    Except StarbotError Json × List HttpRequest :=
  match _authedRequest st "GET" "me/orders"
      [("market", .str "CA"), ("locale", .str "en-CA"),
       ("limit", .num 1), ("offset", .num 0)] .null resp with
  | (.error e, reqs) => (.error e, reqs)
  | (.ok data, reqs) =>
    let basket := (((data.getFieldOpt "orderHistoryItems").indexOpt 0).getFieldOpt "basket")
    (.ok (if basket.isTruthy then basket else .null), reqs)

/-- One item of the `orderToCart` mapping (quantity plus commerce sku). -/
def mapCartItem (it : Json) : Except StarbotError Json :=
  if it.isNullish then .error .typeError
  else .ok (.obj [("quantity", it.getField "quantity"),
                  ("commerce", .obj [("sku", (it.getField "commerce").getFieldOpt "sku")])])

/-- Model of `orderToCart(order)` (`src/starbot.js` lines 286–297): the one
pure method — it takes no response oracle and issues no request, its
result is a function of `order` alone. -/
def orderToCart (order : Json) : Except StarbotError Json :=
  if order.isNullish then .error .typeError
  else
    match jsMapArr (order.getField "items") mapCartItem with
    | .error e => .error e
    | .ok its =>
      .ok (.obj [("cart", .obj [("offers", .arr []), ("items", .arr its)]),
                 ("delivery", .obj [("deliveryType", order.getField "preparation")])])

/-- Model of `priceOrder(storeNumber, cart)` (`src/starbot.js` lines
302–313). -/
def priceOrder (st : StarbotAPI) (storeNumber : Json) (cart : Json)
    (resp : HttpResponse) : Except StarbotError Json × List HttpRequest :=
  match _authedRequest st "POST"
      ("me/stores/" ++ storeNumber.jsToString ++ "/priceOrder")
      [("market", .str "CA"), ("locale", .str "en-CA"), ("serviceTime", .bool true)]
      cart resp with
  | (.error e, reqs) => (.error e, reqs)
  | (.ok data, reqs) =>
    if data.isNullish then (.error .typeError, reqs)
    else
      (.ok (.obj [("orderToken", data.getField "orderToken"),
                  ("total", (data.getField "summary").getFieldOpt "totalAmount"),
                  ("storeNumber", (data.getField "store").getFieldOpt "storeNumber"),
                  ("signature", data.getField "signature")]), reqs)

/-- Model of `placeOrder(pricedOrder, cardId)` (`src/starbot.js` lines
318–331).
The path template reads `pricedOrder.storeNumber` and
`pricedOrder.orderToken` before `_authedRequest` runs, so a nullish
`pricedOrder` raises a TypeError even with no token set. -/
def placeOrder (st : StarbotAPI) (pricedOrder cardId : Json)
    (resp : HttpResponse) : Except StarbotError Json × List HttpRequest :=
  if pricedOrder.isNullish then (.error .typeError, [])
  else
    _authedRequest st "POST"
      ("me/stores/" ++ (pricedOrder.getField "storeNumber").jsToString ++
       "/orderToken/" ++ (pricedOrder.getField "orderToken").jsToString ++ "/submitOrder")
      [("market", .str "CA"), ("locale", .str "en-CA")]
      (.obj [("signature", pricedOrder.getField "signature"),
             ("tenders", .arr [.obj [("amountToCharge", pricedOrder.getField "total"),
                                     ("type", .str "SVC"),
                                     ("id", cardId)]])])
      resp

/-- Model of `rewards()` (`src/starbot.js` lines 336–338). -/
def rewards (st : StarbotAPI) (resp : HttpResponse) :
    Except StarbotError Json × List HttpRequest :=
  _authedRequest st "GET" "me/rewards"
    [("market", .str "CA"), ("locale", .str "en-CA")] .null resp

/-! Helper lemmas shared by the claim theorems. -/

/-- String coercion of a string value is the string itself. -/
theorem jsToString_str (s : String) : Json.jsToString (.str s) = s := by
  simp [Json.jsToString]

/-- A throwing map where every element succeeds is an ordinary map. -/
theorem mapJs_eq_ok_map (f : Json → Except StarbotError Json) (g : Json → Json)
    (l : List Json) (h : ∀ x ∈ l, f x = .ok (g x)) :
    mapJs f l = .ok (l.map g) := by
  induction l with
  | nil => rfl
  | cons x xs ih =>
    rw [List.map_cons, mapJs, h x (List.mem_cons_self x xs),
      ih fun y hy => h y (List.mem_cons_of_mem x hy)]

/-- A value whose field access yields a non-nullish result is itself
non-nullish. -/
theorem not_nullish_of_getField {j : Json} {k : String} {v : Json}
    (hv : j.getField k = v) (hne : v.isNullish = false) : j.isNullish = false := by
  cases j
  case null => rw [← hv] at hne; simp [Json.getField, Json.isNullish] at hne
  all_goals rfl

/-- With a falsy access token, the choke point fails with
`notAuthenticated` before reaching the network. -/
theorem _authedRequest_noToken (st : StarbotAPI) (h : st.accessToken.isFalsy = true)
    (method path : String) (params : List (String × Json)) (body : Json)
    (resp : HttpResponse) :
    _authedRequest st method path params body resp = (.error .notAuthenticated, []) := by
  simp [_authedRequest, h]

/-- With a truthy access token, the choke point issues exactly one request,
of this shape, whatever the response status. -/
theorem _authedRequest_requests (st : StarbotAPI) (h : st.accessToken.isFalsy = false)
    (method path : String) (params : List (String × Json)) (body : Json)
    (resp : HttpResponse) :
    (_authedRequest st method path params body resp).2 =
      [{ method := method
         url := BASE_URL ++ "/" ++ path
         query := params.foldl (fun q p => setParam q p.1 p.2.jsToString) []
         headers := [("Authorization", "Bearer " ++ st.accessToken.jsToString),
                     ("Accept", "application/json"),
                     ("User-Agent", USER_AGENT)] ++
                    (if body.isTruthy then [("Content-Type", "application/json")] else [])
         formBody := none
         jsonBody := if body.isTruthy then some body else none }] := by
  simp only [_authedRequest, h, Bool.false_eq_true, if_false, apply_ite Prod.snd, ite_self]

/-! The claims. -/

/-- C1: with no access token present, every authenticated operation
(`nearbyStores`, `cards`, `lastOrder`, `priceOrder`, `placeOrder`,
`rewards`) fails with `notAuthenticated` and issues no network request.
For `placeOrder` the priced-order argument must be an actual value (a
nullish one would fail earlier, on the property accesses of the path
template, which JavaScript evaluates before the call). -/
theorem starbot_C1 (st : StarbotAPI) (h : st.accessToken = .null) :
    (∀ lat lng limit radius resp,
        nearbyStores st lat lng limit radius resp = (.error .notAuthenticated, [])) ∧
    (∀ resp, cards st resp = (.error .notAuthenticated, [])) ∧
    (∀ resp, lastOrder st resp = (.error .notAuthenticated, [])) ∧
    (∀ sn cart resp, priceOrder st sn cart resp = (.error .notAuthenticated, [])) ∧
    (∀ p c resp, p.isNullish = false →
        placeOrder st p c resp = (.error .notAuthenticated, [])) ∧
    (∀ resp, rewards st resp = (.error .notAuthenticated, [])) := by
  have hf : st.accessToken.isFalsy = true := by simp [h, Json.isFalsy, Json.isTruthy]
  refine ⟨?_, ?_, ?_, ?_, ?_, ?_⟩
  · intro lat lng limit radius resp
    simp [nearbyStores, _authedRequest_noToken st hf]
  · intro resp
    simp [cards, _authedRequest_noToken st hf]
  · intro resp
    simp [lastOrder, _authedRequest_noToken st hf]
  · intro sn cart resp
    simp [priceOrder, _authedRequest_noToken st hf]
  · intro p c resp hp
    simp [placeOrder, hp, _authedRequest_noToken st hf]
  · intro resp
    simp [rewards, _authedRequest_noToken st hf]

/-- Witness for C1 on the fresh client state. -/
theorem starbot_C1_witness :
    StarbotAPI.new.accessToken = Json.null ∧
    cards StarbotAPI.new { status := 200, bodyText := "", json := .obj [] } =
      (.error .notAuthenticated, []) ∧
    rewards StarbotAPI.new { status := 200, bodyText := "", json := .obj [] } =
      (.error .notAuthenticated, []) :=
  ⟨rfl,
   (starbot_C1 StarbotAPI.new rfl).2.1 { status := 200, bodyText := "", json := .obj [] },
   (starbot_C1 StarbotAPI.new rfl).2.2.2.2.2 { status := 200, bodyText := "", json := .obj [] }⟩

/-- C2: when `setCredentials` has never been called the client id is still
`null`, so `login` fails with `authConfig` for all inputs, leaves the state
unchanged, and issues no request. -/
theorem starbot_C2 (st : StarbotAPI) (h : st.clientId = .null)
    (username password sig : String) (resp : HttpResponse) :
    login st username password sig resp = (.error .authConfig, st, []) := by
  simp [login, h, Json.isFalsy, Json.isTruthy]

/-- Witness for C2 on the fresh client state. -/
theorem starbot_C2_witness :
    StarbotAPI.new.clientId = Json.null ∧
    login StarbotAPI.new "user" "pw" "SIG" { status := 200, bodyText := "", json := .obj [] } =
      (.error .authConfig, StarbotAPI.new, []) :=
  ⟨rfl, starbot_C2 StarbotAPI.new rfl "user" "pw" "SIG"
    { status := 200, bodyText := "", json := .obj [] }⟩

/-- Counterexample to C3 as stated: on a non-2xx locator response the
error is `locatorFailure` with the status only, not an `apiError` carrying
the status and the response body text. -/
theorem starbot_C3_counterexample :
    (storesByAddress "x" { status := 500, bodyText := "boom", json := .null }).1 =
      .error (.locatorFailure 500) ∧
    StarbotError.locatorFailure 500 ≠ StarbotError.apiError 500 "boom" :=
  ⟨rfl, by decide⟩

/-- C3 (amended): a non-2xx response yields `authFailure` with the exact
status for the token endpoint and `apiError` with the exact status and the
response body text for every authenticated endpoint; the unauthenticated
store locator yields an error carrying the exact status only. -/
theorem starbot_C3_amended :
    (∀ st u p sig resp, st.clientId.isFalsy = false → resp.ok = false →
        (login st u p sig resp).1 = .error (.authFailure resp.status)) ∧
    (∀ st method path params body resp,
        st.accessToken.isFalsy = false → resp.ok = false →
        (_authedRequest st method path params body resp).1 =
          .error (.apiError resp.status resp.bodyText)) ∧
    (∀ addr resp, resp.ok = false →
        (storesByAddress addr resp).1 = .error (.locatorFailure resp.status)) := by
  refine ⟨?_, ?_, ?_⟩
  · intro st u p sig resp hcid hok
    simp [login, hcid, hok]
  · intro st method path params body resp htok hok
    simp [_authedRequest, htok, hok]
  · intro addr resp hok
    simp [storesByAddress, hok]

/-- Witness for the amended C3, one 404 per endpoint class. -/
theorem starbot_C3_witness :
    HttpResponse.ok { status := 404, bodyText := "nf", json := .null } = false ∧
    (setCredentials StarbotAPI.new (.str "id") (.str "sec")).clientId.isFalsy = false ∧
    (setToken StarbotAPI.new (.str "T")).accessToken.isFalsy = false ∧
    (login (setCredentials StarbotAPI.new (.str "id") (.str "sec")) "u" "p" "SIG"
        { status := 404, bodyText := "nf", json := .null }).1 = .error (.authFailure 404) ∧
    (_authedRequest (setToken StarbotAPI.new (.str "T")) "GET" "me/cards" [] .null
        { status := 404, bodyText := "nf", json := .null }).1 = .error (.apiError 404 "nf") ∧
    (storesByAddress "x" { status := 404, bodyText := "nf", json := .null }).1 =
      .error (.locatorFailure 404) :=
  ⟨rfl, rfl, rfl,
   starbot_C3_amended.1 _ "u" "p" "SIG" _ rfl rfl,
   starbot_C3_amended.2.1 _ "GET" "me/cards" [] _ _ rfl rfl,
   starbot_C3_amended.2.2 "x" _ rfl⟩

/-- C4: a successful login whose token payload holds `access_token = T`
(with `T` a non-empty string) returns the raw payload, stores `T` as the
session token, and every subsequent authenticated request carries the
header `Authorization: Bearer T`. -/
theorem starbot_C4 (st : StarbotAPI) (u p sig : String) (resp : HttpResponse) (T : String)
    (hcid : st.clientId.isFalsy = false) (hok : resp.ok = true)
    (hT : resp.json.getField "access_token" = .str T) (hTne : T ≠ "") :
    (login st u p sig resp).1 = .ok resp.json ∧
    ((login st u p sig resp).2.1).accessToken = .str T ∧
    ∀ method path params body resp2,
      ∃ req : HttpRequest,
        (_authedRequest (login st u p sig resp).2.1 method path params body resp2).2 = [req] ∧
        ("Authorization", "Bearer " ++ T) ∈ req.headers := by
  have hnn : resp.json.isNullish = false :=
    not_nullish_of_getField hT (by simp [Json.isNullish])
  have hst : (login st u p sig resp).2.1 =
      { st with accessToken := resp.json.getField "access_token" } := by
    simp [login, hcid, hok, hnn]
  have h1 : (login st u p sig resp).1 = .ok resp.json := by
    simp [login, hcid, hok, hnn]
  have htok : (login st u p sig resp).2.1.accessToken = .str T := by
    rw [hst]; simpa using hT
  have hfal : (login st u p sig resp).2.1.accessToken.isFalsy = false := by
    rw [htok]; simp [Json.isFalsy, Json.isTruthy, hTne]
  refine ⟨h1, htok, ?_⟩
  intro method path params body resp2
  refine ⟨_, _authedRequest_requests _ hfal method path params body resp2, ?_⟩
  rw [htok, jsToString_str]
  simp

/-- Witness for C4: the end-to-end scenario of the spec, with a mocked
token endpoint answering `access_token = "T"`. -/
theorem starbot_C4_witness :
    (setCredentials StarbotAPI.new (.str "id") (.str "secret")).clientId.isFalsy = false ∧
    HttpResponse.ok
      { status := 200, bodyText := "", json := .obj [("access_token", .str "T")] } = true ∧
    (Json.obj [("access_token", .str "T")]).getField "access_token" = .str "T" ∧
    "T" ≠ "" ∧
    ((login (setCredentials StarbotAPI.new (.str "id") (.str "secret")) "u" "p" "SIG"
        { status := 200, bodyText := "", json := .obj [("access_token", .str "T")] }).1 =
      .ok (.obj [("access_token", .str "T")]) ∧
    ((login (setCredentials StarbotAPI.new (.str "id") (.str "secret")) "u" "p" "SIG"
        { status := 200, bodyText := "", json := .obj [("access_token", .str "T")] }).2.1).accessToken =
      .str "T" ∧
    ∀ method path params body resp2,
      ∃ req : HttpRequest,
        (_authedRequest
          (login (setCredentials StarbotAPI.new (.str "id") (.str "secret")) "u" "p" "SIG"
            { status := 200, bodyText := "", json := .obj [("access_token", .str "T")] }).2.1
          method path params body resp2).2 = [req] ∧
        ("Authorization", "Bearer " ++ "T") ∈ req.headers) :=
  ⟨rfl, rfl, rfl, by decide,
   starbot_C4 (setCredentials StarbotAPI.new (.str "id") (.str "secret")) "u" "p" "SIG"
     { status := 200, bodyText := "", json := .obj [("access_token", .str "T")] } "T"
     rfl rfl rfl (by decide)⟩

/-- C5: `orderToCart` is pure (it is a plain function of the order, with no
response oracle and no request list), and on an order whose `items` field
is a list of item records it returns the cart whose items are exactly the
items mapped to quantity and commerce sku, with an empty offers list and
`deliveryType` equal to the `preparation` field of the order; being a
function, two calls on the same order yield the same structure. -/
theorem starbot_C5 (order : Json) (l : List Json)
    (hnn : order.isNullish = false)
    (hitems : order.getField "items" = .arr l)
    (hl : ∀ it ∈ l, it.isNullish = false) :
    orderToCart order =
      .ok (.obj [("cart", .obj [("offers", .arr []),
                   ("items", .arr (l.map fun it =>
                      .obj [("quantity", it.getField "quantity"),
                            ("commerce", .obj [("sku", (it.getField "commerce").getFieldOpt "sku")])]))]),
                 ("delivery", .obj [("deliveryType", order.getField "preparation")])]) := by
  have hmap : mapJs mapCartItem l = .ok (l.map fun it =>
      Json.obj [("quantity", it.getField "quantity"),
                ("commerce", .obj [("sku", (it.getField "commerce").getFieldOpt "sku")])]) :=
    mapJs_eq_ok_map _ _ l fun x hx => by simp [mapCartItem, hl x hx]
  simp [orderToCart, hnn, hitems, jsMapArr, hmap]

/-- Witness for C5 on a one-item order. -/
theorem starbot_C5_witness :
    (Json.obj [("items", .arr [.obj [("quantity", .num 2),
        ("commerce", .obj [("sku", .str "S1")])]]),
      ("preparation", .str "PICKUP")]).isNullish = false ∧
    (Json.obj [("items", .arr [.obj [("quantity", .num 2),
        ("commerce", .obj [("sku", .str "S1")])]]),
      ("preparation", .str "PICKUP")]).getField "items" =
      .arr [.obj [("quantity", .num 2), ("commerce", .obj [("sku", .str "S1")])]] ∧
    (∀ it ∈ [Json.obj [("quantity", .num 2), ("commerce", .obj [("sku", .str "S1")])]],
        it.isNullish = false) ∧
    orderToCart (Json.obj [("items", .arr [.obj [("quantity", .num 2),
        ("commerce", .obj [("sku", .str "S1")])]]),
      ("preparation", .str "PICKUP")]) =
      .ok (.obj [("cart", .obj [("offers", .arr []),
                   ("items", .arr ([Json.obj [("quantity", .num 2),
                      ("commerce", .obj [("sku", .str "S1")])]].map fun it =>
                      .obj [("quantity", it.getField "quantity"),
                            ("commerce", .obj [("sku", (it.getField "commerce").getFieldOpt "sku")])]))]),
                 ("delivery", .obj [("deliveryType",
                    (Json.obj [("items", .arr [.obj [("quantity", .num 2),
                        ("commerce", .obj [("sku", .str "S1")])]]),
                      ("preparation", .str "PICKUP")]).getField "preparation")])]) :=
  ⟨rfl, rfl, by simp [Json.isNullish],
   starbot_C5 _ _ rfl rfl (by simp [Json.isNullish])⟩

/-- C6: a 2xx `cards` response whose payload is not an array yields the
empty collection, not an error. -/
theorem starbot_C6 (st : StarbotAPI) (resp : HttpResponse)
    (htok : st.accessToken.isFalsy = false) (hok : resp.ok = true)
    (hna : resp.json.isArray = false) :
    (cards st resp).1 = .ok (.arr []) := by
  simp [cards, _authedRequest, htok, hok, hna, mapJs]

/-- Witness for C6 on an object payload. -/
theorem starbot_C6_witness :
    (setToken StarbotAPI.new (.str "T")).accessToken.isFalsy = false ∧
    HttpResponse.ok { status := 200, bodyText := "", json := .obj [("e", .num 1)] } = true ∧
    (Json.obj [("e", .num 1)]).isArray = false ∧
    (cards (setToken StarbotAPI.new (.str "T"))
        { status := 200, bodyText := "", json := .obj [("e", .num 1)] }).1 = .ok (.arr []) :=
  ⟨rfl, rfl, rfl, starbot_C6 _ _ rfl rfl rfl⟩

/-- C7: a 2xx `nearbyStores` response whose `stores` field is a list of
entry records is mapped entrywise to the reduced record of id, name,
storeNumber, address and distance; an entry whose `store` field is absent
maps to a record whose four nested fields are all `null` (and, by
`getFieldOpt`, an absent subfield likewise surfaces as `null`) instead of
the mapping failing. -/
theorem starbot_C7 (st : StarbotAPI) (lat lng limit radius : Json)
    (resp : HttpResponse) (l : List Json)
    (htok : st.accessToken.isFalsy = false) (hok : resp.ok = true)
    (hstores : resp.json.getField "stores" = .arr l)
    (hl : ∀ e ∈ l, e.isNullish = false) :
    (nearbyStores st lat lng limit radius resp).1 = .ok (.arr (l.map mapNearbyStoreCore)) ∧
    ∀ e, e.getField "store" = .null →
      mapNearbyStoreCore e =
        .obj [("id", .null), ("name", .null), ("storeNumber", .null),
              ("address", .null), ("distance", e.getField "distance")] := by
  have hnn : resp.json.isNullish = false :=
    not_nullish_of_getField hstores (by simp [Json.isNullish])
  have hmap : mapJs mapNearbyStore l = .ok (l.map mapNearbyStoreCore) :=
    mapJs_eq_ok_map _ _ l fun x hx => by simp [mapNearbyStore, hl x hx]
  constructor
  · simp [nearbyStores, _authedRequest, htok, hok, hnn, hstores, jsMapArr, hmap]
  · intro e he
    simp [mapNearbyStoreCore, he, Json.getFieldOpt, Json.isNullish]

/-- Witness for C7 on a one-entry list whose entry lacks the `store`
field. -/
theorem starbot_C7_witness :
    (setToken StarbotAPI.new (.str "T")).accessToken.isFalsy = false ∧
    HttpResponse.ok
      { status := 200, bodyText := "",
        json := .obj [("stores", .arr [.obj [("distance", .num 2)]])] } = true ∧
    (Json.obj [("stores", .arr [.obj [("distance", .num 2)]])]).getField "stores" =
      .arr [.obj [("distance", .num 2)]] ∧
    (∀ e ∈ [Json.obj [("distance", .num 2)]], e.isNullish = false) ∧
    ((nearbyStores (setToken StarbotAPI.new (.str "T")) (.str "49.1") (.str "-122.6")
        (.num 5) (.num 3)
        { status := 200, bodyText := "",
          json := .obj [("stores", .arr [.obj [("distance", .num 2)]])] }).1 =
      .ok (.arr ([Json.obj [("distance", .num 2)]].map mapNearbyStoreCore)) ∧
    ∀ e, e.getField "store" = .null →
      mapNearbyStoreCore e =
        .obj [("id", .null), ("name", .null), ("storeNumber", .null),
              ("address", .null), ("distance", e.getField "distance")]) :=
  ⟨rfl, rfl, rfl, by simp [Json.isNullish],
   starbot_C7 _ (.str "49.1") (.str "-122.6") (.num 5) (.num 3) _ _
     rfl rfl rfl (by simp [Json.isNullish])⟩

/-- C8: with a token present, `placeOrder(p, c)` issues exactly one POST
whose path carries the orderToken of `p` unmodified, and whose JSON body
carries the signature of `p` unmodified together with a single tender of
id `c`, type SVC, and charge amount equal to the total of `p`. -/
theorem starbot_C8 (st : StarbotAPI) (p cardId : Json) (sn tok : String)
    (resp : HttpResponse)
    (htok : st.accessToken.isFalsy = false)
    (hpnn : p.isNullish = false)
    (hsn : p.getField "storeNumber" = .str sn)
    (htk : p.getField "orderToken" = .str tok) :
    (placeOrder st p cardId resp).2 =
      [{ method := "POST"
         url := BASE_URL ++ "/" ++ ("me/stores/" ++ sn ++ "/orderToken/" ++ tok ++ "/submitOrder")
         query := [("market", "CA"), ("locale", "en-CA")]
         headers := [("Authorization", "Bearer " ++ st.accessToken.jsToString),
                     ("Accept", "application/json"),
                     ("User-Agent", USER_AGENT),
                     ("Content-Type", "application/json")]
         formBody := none
         jsonBody := some (.obj [("signature", p.getField "signature"),
                                 ("tenders", .arr [.obj [("amountToCharge", p.getField "total"),
                                                         ("type", .str "SVC"),
                                                         ("id", cardId)]])]) }] := by
  simp only [placeOrder, hpnn, Bool.false_eq_true, if_false, hsn, htk, jsToString_str]
  rw [_authedRequest_requests st htok]
  simp [setParam, Json.isTruthy, Json.jsToString]

/-- Witness for C8 on a concrete priced order and card. -/
theorem starbot_C8_witness :
    (setToken StarbotAPI.new (.str "T")).accessToken.isFalsy = false ∧
    (Json.obj [("storeNumber", .str "1001"), ("orderToken", .str "TOK"),
      ("signature", .str "SG"), ("total", .num 7)]).isNullish = false ∧
    (Json.obj [("storeNumber", .str "1001"), ("orderToken", .str "TOK"),
      ("signature", .str "SG"), ("total", .num 7)]).getField "storeNumber" = .str "1001" ∧
    (Json.obj [("storeNumber", .str "1001"), ("orderToken", .str "TOK"),
      ("signature", .str "SG"), ("total", .num 7)]).getField "orderToken" = .str "TOK" ∧
    (placeOrder (setToken StarbotAPI.new (.str "T"))
        (.obj [("storeNumber", .str "1001"), ("orderToken", .str "TOK"),
          ("signature", .str "SG"), ("total", .num 7)])
        (.str "card1") { status := 200, bodyText := "", json := .obj [] }).2 =
      [{ method := "POST"
         url := BASE_URL ++ "/" ++
           ("me/stores/" ++ "1001" ++ "/orderToken/" ++ "TOK" ++ "/submitOrder")
         query := [("market", "CA"), ("locale", "en-CA")]
         headers := [("Authorization", "Bearer " ++
                        (setToken StarbotAPI.new (.str "T")).accessToken.jsToString),
                     ("Accept", "application/json"),
                     ("User-Agent", USER_AGENT),
                     ("Content-Type", "application/json")]
         formBody := none
         jsonBody := some (.obj [("signature",
             (Json.obj [("storeNumber", .str "1001"), ("orderToken", .str "TOK"),
               ("signature", .str "SG"), ("total", .num 7)]).getField "signature"),
           ("tenders", .arr [.obj [("amountToCharge",
               (Json.obj [("storeNumber", .str "1001"), ("orderToken", .str "TOK"),
                 ("signature", .str "SG"), ("total", .num 7)]).getField "total"),
             ("type", .str "SVC"),
             ("id", .str "card1")]])]) }] :=
  ⟨rfl, rfl, rfl, rfl,
   starbot_C8 (setToken StarbotAPI.new (.str "T"))
     (.obj [("storeNumber", .str "1001"), ("orderToken", .str "TOK"),
       ("signature", .str "SG"), ("total", .num 7)])
     (.str "card1") "1001" "TOK" { status := 200, bodyText := "", json := .obj [] }
     rfl rfl rfl rfl⟩

/-- C9: the configuration check of `login` inspects only the client id:
with a non-empty client id stored, `login` never fails with `authConfig`
and always builds and issues the token request, whatever the stored client
secret is (in particular when it is `null` or empty; the secret is merely
coerced to a string inside the form body). -/
theorem starbot_C9 (st : StarbotAPI) (cid u p sig : String) (resp : HttpResponse)
    (hcid : st.clientId = .str cid) (hne : cid ≠ "") :
    (login st u p sig resp).1 ≠ .error .authConfig ∧
    (login st u p sig resp).2.2 =
      [{ method := "POST"
         url := BASE_URL ++ "/oauth/token"
         query := [("sig", sig), ("market", "CA"), ("platform", "Android")]
         headers := [("Content-Type", "application/x-www-form-urlencoded; charset=UTF-8"),
                     ("User-Agent", USER_AGENT),
                     ("Accept", "application/json"),
                     ("X-Api-Key", cid)]
         formBody := some [("grant_type", "password"), ("client_id", cid),
                           ("client_secret", st.clientSecret.jsToString),
                           ("username", u), ("password", p)]
         jsonBody := none }] := by
  have hfal : st.clientId.isFalsy = false := by
    simp [hcid, Json.isFalsy, Json.isTruthy, hne]
  have hfal2 : (Json.str cid).isFalsy = false := by
    simp [Json.isFalsy, Json.isTruthy, hne]
  constructor
  · simp only [login, hfal, hcid, hfal2, Bool.false_eq_true, if_false]
    by_cases h1 : resp.ok
    · by_cases h2 : resp.json.isNullish
      · simp [h1, h2]
      · simp [h1, h2]
    · simp [h1]
  · simp only [login, hfal, hcid, hfal2, Bool.false_eq_true, if_false, jsToString_str]
    by_cases h1 : resp.ok
    · by_cases h2 : resp.json.isNullish
      · simp [h1, h2]
      · simp [h1, h2]
    · simp [h1]

/-- Witness for C9 with the client secret left `null`. -/
theorem starbot_C9_witness :
    (setCredentials StarbotAPI.new (.str "id") Json.null).clientId = .str "id" ∧
    "id" ≠ "" ∧
    ((login (setCredentials StarbotAPI.new (.str "id") Json.null) "u" "p" "SIG"
        { status := 404, bodyText := "nf", json := .null }).1 ≠ .error .authConfig ∧
    (login (setCredentials StarbotAPI.new (.str "id") Json.null) "u" "p" "SIG"
        { status := 404, bodyText := "nf", json := .null }).2.2 =
      [{ method := "POST"
         url := BASE_URL ++ "/oauth/token"
         query := [("sig", "SIG"), ("market", "CA"), ("platform", "Android")]
         headers := [("Content-Type", "application/x-www-form-urlencoded; charset=UTF-8"),
                     ("User-Agent", USER_AGENT),
                     ("Accept", "application/json"),
                     ("X-Api-Key", "id")]
         formBody := some [("grant_type", "password"), ("client_id", "id"),
                           ("client_secret",
                             (setCredentials StarbotAPI.new (.str "id") Json.null).clientSecret.jsToString),
                           ("username", "u"), ("password", "p")]
         jsonBody := none }]) :=
  ⟨rfl, by decide,
   starbot_C9 (setCredentials StarbotAPI.new (.str "id") Json.null) "id" "u" "p" "SIG"
     { status := 404, bodyText := "nf", json := .null } rfl (by decide)⟩

/-- C10: the authentication check is falsy-based: after `setToken("")`
every call through the authenticated choke point still fails with
`notAuthenticated` and issues no request; and a successful login whose
2xx response lacks an `access_token` field succeeds (returning the raw
payload) yet leaves the token falsy, so every subsequent authenticated
call still fails with `notAuthenticated`. -/
theorem starbot_C10 :
    (∀ st method path params body resp,
        _authedRequest (setToken st (.str "")) method path params body resp =
          (.error .notAuthenticated, [])) ∧
    (∀ st u p sig resp, st.clientId.isFalsy = false → resp.ok = true →
        resp.json.isNullish = false →
        resp.json.getField "access_token" = .null →
        (login st u p sig resp).1 = .ok resp.json ∧
        ∀ method path params body resp2,
          _authedRequest (login st u p sig resp).2.1 method path params body resp2 =
            (.error .notAuthenticated, [])) := by
  constructor
  · intro st method path params body resp
    apply _authedRequest_noToken
    simp [setToken, Json.isFalsy, Json.isTruthy]
  · intro st u p sig resp hcid hok hnn hlack
    have h1 : (login st u p sig resp).1 = .ok resp.json := by
      simp [login, hcid, hok, hnn]
    have hst : (login st u p sig resp).2.1 =
        { st with accessToken := resp.json.getField "access_token" } := by
      simp [login, hcid, hok, hnn]
    refine ⟨h1, ?_⟩
    intro method path params body resp2
    apply _authedRequest_noToken
    rw [hst]
    simp [hlack, Json.isFalsy, Json.isTruthy]

/-- Witness for C10: an empty-string token, and a login against a 2xx
response with no `access_token` field. -/
theorem starbot_C10_witness :
    _authedRequest (setToken StarbotAPI.new (.str "")) "GET" "me/rewards" [] .null
        { status := 200, bodyText := "", json := .obj [] } =
      (.error .notAuthenticated, []) ∧
    (setCredentials StarbotAPI.new (.str "id") (.str "sec")).clientId.isFalsy = false ∧
    HttpResponse.ok { status := 200, bodyText := "", json := .obj [("foo", .num 1)] } = true ∧
    (Json.obj [("foo", .num 1)]).isNullish = false ∧
    (Json.obj [("foo", .num 1)]).getField "access_token" = .null ∧
    ((login (setCredentials StarbotAPI.new (.str "id") (.str "sec")) "u" "p" "SIG"
        { status := 200, bodyText := "", json := .obj [("foo", .num 1)] }).1 =
      .ok (.obj [("foo", .num 1)]) ∧
    ∀ method path params body resp2,
      _authedRequest
        (login (setCredentials StarbotAPI.new (.str "id") (.str "sec")) "u" "p" "SIG"
          { status := 200, bodyText := "", json := .obj [("foo", .num 1)] }).2.1
        method path params body resp2 = (.error .notAuthenticated, [])) :=
  ⟨starbot_C10.1 StarbotAPI.new "GET" "me/rewards" [] .null
     { status := 200, bodyText := "", json := .obj [] },
   rfl, rfl, rfl, rfl,
   starbot_C10.2 (setCredentials StarbotAPI.new (.str "id") (.str "sec")) "u" "p" "SIG"
     { status := 200, bodyText := "", json := .obj [("foo", .num 1)] } rfl rfl rfl rfl⟩

end Starbot
